import Mathlib

/-!
Formal model of the cuOpt benchmark client
(src/benchmarks/benchmark_client.py) and of the EV fleet example
(src/use-cases/ev-fleet/example.py), with theorems about problem
generation, payload construction, timeout derivation, result metadata,
and the benchmark runner.

Modelling conventions:
- The Python global `random` module is modelled as an explicitly threaded
  deterministic pseudo-random generator (a linear congruential generator).
  All properties proved here depend only on the generator being a
  deterministic function of its seed and on `randint lo hi` returning a
  value in `[lo, hi]`; both are shared by Python's Mersenne Twister.
- `time.time()` is modelled by explicit time arguments: `now_ms` (the
  millisecond clock used to derive seeds) and the wall-clock pair
  `t0`, `t1` read around an HTTP POST.
- The HTTP layer is modelled by an oracle `resp : Int -> Except Unit
  HttpResponse` per call, mapping the request timeout to either a network
  failure (a raised `requests` exception) or a decoded-JSON response.
- Python exceptions are modelled with `Except RunErr`.
-/

namespace CuOpt

/-- Linear congruential generator step, the model of advancing the state of
Python's global `random` generator by one draw. -/
def lcgNext (s : Nat) : Nat := (s * 1103515245 + 12345) % 2147483648

/-- Model of `random.seed(k)`: map an integer seed to a generator state. -/
def seedState (s : Int) : Nat := (s.emod 4294967296).toNat

/-- Model of `random.randint(lo, hi)`: one draw, returning a value in
`[lo, hi]` together with the advanced generator state. -/
def randint (lo hi : Int) (s : Nat) : Int × Nat :=
  let s1 := lcgNext s
  (lo + (s1 : Int) % (hi - lo + 1), s1)

/-- One row of the cost matrix: the inner `for j in range(...)` loop of
`generate_cost_matrix` (and of the EV example's matrix loop), with `i` the
row index, `j` the current column index and `fuel` the remaining columns.
A diagonal cell appends `0` without drawing; any other cell draws
`randint lo hi`. -/
def genRowAux (lo hi : Int) (i j fuel : Nat) (s : Nat) : List Int × Nat :=
  match fuel with
  | 0 => ([], s)
  | f + 1 =>
    if i = j then
      let rest := genRowAux lo hi i (j + 1) f s
      (0 :: rest.1, rest.2)
    else
      let v := randint lo hi s
      let rest := genRowAux lo hi i (j + 1) f v.2
      (v.1 :: rest.1, rest.2)

/-- The outer `for i in range(...)` loop of the matrix generation: `n` is the
row width, `fuel` the remaining rows, `i` the current row index. -/
def genMatrixAux (lo hi : Int) (i n fuel : Nat) (s : Nat) : List (List Int) × Nat :=
  match fuel with
  | 0 => ([], s)
  | f + 1 =>
    let row := genRowAux lo hi i 0 n s
    let rest := genMatrixAux lo hi (i + 1) n f row.2
    (row.1 :: rest.1, rest.2)

/-- Model of `CuOptClient.generate_cost_matrix(num_locations, seed)`.
The Python code runs `if seed:` — a truthiness test — so `seed = 0` (like
`seed = None`) falls into the time-derived branch
`random.seed(int(time.time() * 1000) % 2**32)`, modelled by `now_ms`.
Returns the matrix together with the final generator state (the Python
function mutates the process-wide `random` state, which later draws in
`build_vrp_payload` continue from). -/
def generate_cost_matrix (num_locations : Nat) (seed : Option Int) (now_ms : Nat) :
    List (List Int) × Nat :=
  let s0 : Nat :=
    match seed with
    | some s => if s ≠ 0 then seedState s else seedState ((now_ms % 4294967296 : Nat) : Int)
    | none => seedState ((now_ms % 4294967296 : Nat) : Int)
  genMatrixAux 5 100 0 num_locations num_locations s0

/-- A list comprehension `[random.randint(lo, hi) for _ in range(count)]`. -/
def genIntList (lo hi : Int) (count : Nat) (s : Nat) : List Int × Nat :=
  match count with
  | 0 => ([], s)
  | c + 1 =>
    let v := randint lo hi s
    let rest := genIntList lo hi c v.2
    (v.1 :: rest.1, rest.2)

/-- The `fleet_data` section of a cuOpt payload. -/
structure FleetData where
  vehicle_locations : List (Int × Int)
  capacities : List (List Int)
  vehicle_time_windows : List (Int × Int)
  deriving DecidableEq

/-- The `task_data` section of a cuOpt payload. Note that `demand` is a list
of demand dimensions (the source writes `"demand": [demands]`). -/
structure TaskData where
  task_locations : List Int
  demand : List (List Int)
  task_time_windows : List (Int × Int)
  service_times : List Int
  deriving DecidableEq

/-- The `solver_config` section of a cuOpt payload. -/
structure SolverConfig where
  time_limit : Int
  deriving DecidableEq

/-- A cuOpt API payload. `cost_matrix` stands for the single matrix stored
under `cost_matrix_data.data` at key `"0"`. -/
structure Payload where
  cost_matrix : List (List Int)
  fleet_data : FleetData
  task_data : TaskData
  solver_config : SolverConfig
  deriving DecidableEq

/-- Model of `CuOptClient.build_vrp_payload`. Arguments appear in the
source's order; `now_ms` models the clock read used to seed the RNG inside
the seedless `generate_cost_matrix` call. Returns the payload together with
the final generator state. -/
def build_vrp_payload (num_vehicles num_locations vehicle_capacity time_limit : Int)
    (time_windows : Option (List (Int × Int))) (demands : Option (List Int))
    (service_times : Option (List Int)) (now_ms : Nat) : Payload × Nat :=
  let cm := generate_cost_matrix num_locations.toNat none now_ms
  let nt := (num_locations - 1).toNat
  let dm := match demands with
    | some d => (d, cm.2)
    | none => genIntList 5 20 nt cm.2
  let st := match service_times with
    | some l => (l, dm.2)
    | none => genIntList 5 15 nt dm.2
  let tw := match time_windows with
    | some w => w
    | none => List.replicate nt ((0 : Int), (480 : Int))
  ({ cost_matrix := cm.1,
     fleet_data :=
       { vehicle_locations := List.replicate num_vehicles.toNat ((0 : Int), (0 : Int)),
         capacities := [List.replicate num_vehicles.toNat vehicle_capacity],
         vehicle_time_windows := List.replicate num_vehicles.toNat ((0 : Int), (480 : Int)) },
     task_data :=
       { task_locations := (List.range' 1 nt).map Int.ofNat,
         demand := [dm.1],
         task_time_windows := tw,
         service_times := st.1 },
     solver_config := { time_limit := time_limit } }, st.2)

/-- A decoded JSON value, the result of `response.json()`. -/
inductive JValue where
  | jnull : JValue
  | jbool : Bool → JValue
  | jnum : Int → JValue
  | jstr : String → JValue
  | jarr : List JValue → JValue
  | jobj : List (String × JValue) → JValue

/-- Lookup of a key in a JSON object's (insertion-ordered) field list. -/
def lookupJ : List (String × JValue) → String → Option JValue
  | [], _ => none
  | (k1, v) :: rest, k => if k1 = k then some v else lookupJ rest k

/-- Python dict assignment `d[k] = v`: replace the binding in place if the
key exists, otherwise append it. -/
def setField : List (String × JValue) → String → JValue → List (String × JValue)
  | [], k, v => [(k, v)]
  | (k1, v1) :: rest, k, v =>
    if k1 = k then (k, v) :: rest else (k1, v1) :: setField rest k v

/-- Model of the Python membership test `k in result` on a decoded body. -/
def hasKey (v : JValue) (k : String) : Bool :=
  match v with
  | .jobj fields => (lookupJ fields k).isSome
  | _ => false

/-- The `_metadata` record attached by `CuOptClient.optimize`. -/
def metaObj (elapsed : Int) (status : Nat) : JValue :=
  .jobj [("response_time_seconds", .jnum elapsed), ("status_code", .jnum (status : Int))]

/-- An HTTP response whose body decoded as JSON. -/
structure HttpResponse where
  status : Nat
  body : JValue

/-- Python exceptions relevant to the modelled code paths. -/
inductive RunErr where
  | typeError
  | keyError
  | networkError
  deriving DecidableEq

/-- The external world observed by one `session.post` call: the millisecond
clock used for RNG seeding while the payload is built, the wall clock read
before (`t0`) and after (`t1`) the blocking call, and the HTTP layer as a
function from the request timeout to a network failure or a response. -/
structure CallEnv where
  now_ms : Nat
  t0 : Int
  t1 : Int
  resp : Int → Except Unit HttpResponse

/-- Model of `CuOptClient.optimize(payload, timeout)`. When `timeout` is not
supplied it is `payload.solver_config.time_limit + 120` (the payload built by
`build_vrp_payload` always carries `solver_config.time_limit`, so the `.get`
defaults in the source are never exercised here). A transport failure
propagates (as `networkError`); a decoded body gets the `_metadata` record
attached via `result["_metadata"] = {...}`, which raises a `TypeError` when
the decoded body is not a JSON object (not a Python dict). -/
def optimize (payload : Payload) (timeout : Option Int) (c : CallEnv) :
    Except RunErr JValue :=
  let t := match timeout with
    | some t0 => t0
    | none => payload.solver_config.time_limit + 120
  match c.resp t with
  | .error _ => .error .networkError
  | .ok r =>
    match r.body with
    | .jobj fields => .ok (.jobj (setField fields "_metadata" (metaObj (c.t1 - c.t0) r.status)))
    | _ => .error .typeError

/-- A Python value occurring in a scenario configuration dictionary. -/
inductive PyVal where
  | int : Int → PyVal
  | str : String → PyVal
  | intList : List Int → PyVal
  | pairList : List (Int × Int) → PyVal
  deriving DecidableEq

/-- A scenario configuration dictionary, insertion-ordered. -/
abbrev Scenario := List (String × PyVal)

/-- Dictionary lookup on a scenario. -/
def lookupPy : Scenario → String → Option PyVal
  | [], _ => none
  | (k1, v) :: rest, k => if k1 = k then some v else lookupPy rest k

/-- The union of the named parameters of `optimize_fleet` and
`build_vrp_payload`: exactly the scenario keys that survive the keyword
forwarding `optimize_fleet(**scenario)` → `build_vrp_payload(..., **kwargs)`
without raising a `TypeError`. -/
def allKeys : List String :=
  ["num_vehicles", "num_locations", "vehicle_capacity", "time_limit",
   "time_windows", "demands", "service_times"]

/-- Keyword binding of an optional integer parameter with a default. The
source, being dynamically typed, would accept a value of any type here; the
model rejects non-integers with a `TypeError`, a tightening no theorem below
exercises. -/
def getIntOpt (sc : Scenario) (key : String) (dflt : Int) : Except RunErr Int :=
  match lookupPy sc key with
  | none => .ok dflt
  | some (.int n) => .ok n
  | some _ => .error .typeError

/-- Keyword binding of the optional `demands` / `service_times` lists. -/
def getIntListOpt (sc : Scenario) (key : String) : Except RunErr (Option (List Int)) :=
  match lookupPy sc key with
  | none => .ok none
  | some (.intList l) => .ok (some l)
  | some _ => .error .typeError

/-- Keyword binding of the optional `time_windows` list of pairs. -/
def getPairListOpt (sc : Scenario) (key : String) : Except RunErr (Option (List (Int × Int))) :=
  match lookupPy sc key with
  | none => .ok none
  | some (.pairList l) => .ok (some l)
  | some _ => .error .typeError

/-- The arguments of `build_vrp_payload` after successful keyword binding. -/
structure BoundArgs where
  num_vehicles : Int
  num_locations : Int
  vehicle_capacity : Int
  time_limit : Int
  time_windows : Option (List (Int × Int))
  demands : Option (List Int)
  service_times : Option (List Int)
  deriving DecidableEq

/-- Keyword binding performed by the call chain
`optimize_fleet(**scenario)` → `build_vrp_payload(..., **kwargs)`.
A missing required argument raises a `TypeError`; a scenario key outside
`allKeys` falls into `optimize_fleet`'s `**kwargs` and is then an unexpected
keyword argument of `build_vrp_payload`, raising a `TypeError` before the
payload body runs. -/
def bindScenario (sc : Scenario) : Except RunErr BoundArgs :=
  match lookupPy sc "num_vehicles" with
  | some (.int nv) =>
    match lookupPy sc "num_locations" with
    | some (.int nl) =>
      if sc.any (fun p => !(allKeys.contains p.1)) then .error .typeError
      else
        match getIntOpt sc "vehicle_capacity" 100 with
        | .error e => .error e
        | .ok cap =>
          match getIntOpt sc "time_limit" 30 with
          | .error e => .error e
          | .ok tl =>
            match getPairListOpt sc "time_windows" with
            | .error e => .error e
            | .ok tw =>
              match getIntListOpt sc "demands" with
              | .error e => .error e
              | .ok dm =>
                match getIntListOpt sc "service_times" with
                | .error e => .error e
                | .ok st => .ok ⟨nv, nl, cap, tl, tw, dm, st⟩
    | some _ => .error .typeError
    | none => .error .typeError
  | some _ => .error .typeError
  | none => .error .typeError

/-- Whether a scenario's keyword binding succeeds (no `TypeError`). -/
def bindOk (sc : Scenario) : Bool :=
  match bindScenario sc with
  | .ok _ => true
  | .error _ => false

/-- Model of `optimize_fleet(**scenario)` as invoked by `run_benchmark`:
bind the scenario dictionary as keyword arguments, build the payload, and
submit it with no explicit timeout. -/
def optimize_fleet_call (sc : Scenario) (c : CallEnv) : Except RunErr JValue :=
  match bindScenario sc with
  | .error e => .error e
  | .ok b =>
    optimize (build_vrp_payload b.num_vehicles b.num_locations b.vehicle_capacity
      b.time_limit b.time_windows b.demands b.service_times c.now_ms).1 none c

/-- One entry of a scenario's `results` list in the benchmark report. -/
structure IterRecord where
  iteration : Nat
  response_time : Int
  success : Bool
  deriving DecidableEq

/-- The record built for iteration `i` (0-based loop index) from the raw
result: the source stores `i + 1`, the metadata response time, and
`"response" in result`. -/
def mkRecord (i : Nat) (result : JValue) : IterRecord :=
  { iteration := i + 1,
    response_time :=
      match result with
      | .jobj fields =>
        match lookupJ fields "_metadata" with
        | some (.jobj meta) =>
          match lookupJ meta "response_time_seconds" with
          | some (.jnum x) => x
          | _ => 0
        | _ => 0
      | _ => 0,
    success := hasKey result "response" }

/-- A scenario's entry in the report: its configuration and the ordered
iteration records. -/
structure ScenarioEntry where
  config : Scenario
  results : List IterRecord
  deriving DecidableEq

/-- The benchmark report, with `scenarios` as an insertion-ordered mapping. -/
structure Report where
  timestamp : String
  endpoint : String
  scenarios : List (String × ScenarioEntry)
  deriving DecidableEq

/-- Whether `scenario.get("name")` produces a usable dictionary key: a list
value would raise a `TypeError` (unhashable) at insertion time. -/
def nameOk (sc : Scenario) : Bool :=
  match lookupPy sc "name" with
  | some (.intList _) => false
  | some (.pairList _) => false
  | _ => true

/-- Dictionary key under which a scenario's entry is stored:
`scenario.get("name", "scenario_" + str(len(results["scenarios"])))` with
`idx` the number of entries stored so far. Integer keys are collapsed to
their decimal strings; unhashable list values raise a `TypeError`. -/
def scenarioName (sc : Scenario) (idx : Nat) : Except RunErr String :=
  match lookupPy sc "name" with
  | none => .ok ("scenario_" ++ toString idx)
  | some (.str s) => .ok s
  | some (.int n) => .ok (toString n)
  | some _ => .error .typeError

/-- The inner `for i in range(iterations_per_scenario)` loop of
`run_benchmark`: `k` is the global call index (indexing the per-call
environment), `i` the 0-based iteration index, the final argument the
remaining iteration count. An exception from any iteration propagates. -/
def run_iters (env : Nat → CallEnv) (sc : Scenario) (k i : Nat) :
    Nat → Except RunErr (List IterRecord)
  | 0 => .ok []
  | n + 1 =>
    match optimize_fleet_call sc (env k) with
    | .error e => .error e
    | .ok result =>
      match run_iters env sc (k + 1) (i + 1) n with
      | .error e => .error e
      | .ok rest => .ok (mkRecord i result :: rest)

/-- The outer `for scenario in scenarios` loop of `run_benchmark`. The print
statement reads `scenario["num_vehicles"]` and `scenario["num_locations"]`
before any submission, raising a `KeyError` when absent; after the
iterations, the entry is stored under the scenario's name. -/
def run_scenarios (env : Nat → CallEnv) (iters : Nat) :
    List Scenario → Nat → Nat → Except RunErr (List (String × ScenarioEntry))
  | [], _, _ => .ok []
  | sc :: rest, k, idx =>
    if (lookupPy sc "num_vehicles").isNone || (lookupPy sc "num_locations").isNone then
      .error .keyError
    else
      match run_iters env sc k 0 iters with
      | .error e => .error e
      | .ok recs =>
        match scenarioName sc idx with
        | .error e => .error e
        | .ok nm =>
          match run_scenarios env iters rest (k + iters) (idx + 1) with
          | .error e => .error e
          | .ok others => .ok ((nm, ⟨sc, recs⟩) :: others)

/-- Model of `CuOptClient.run_benchmark(scenarios, iterations_per_scenario)`.
The `timestamp` and `endpoint` report fields are taken as inputs (they come
from `datetime.now()` and the client's configured endpoint). -/
def run_benchmark (env : Nat → CallEnv) (timestamp endpoint : String)
    (scenarios : List Scenario) (iterations_per_scenario : Nat) : Except RunErr Report :=
  match run_scenarios env iterations_per_scenario scenarios 0 0 with
  | .error e => .error e
  | .ok entries => .ok ⟨timestamp, endpoint, entries⟩

/-- The time-window comprehension of `generate_ev_fleet_problem`: each task
gets `start = randint(480, 900)` and `end = min(start + randint(60, 180),
1080)`. -/
def genWindows (count : Nat) (s : Nat) : List (Int × Int) × Nat :=
  match count with
  | 0 => ([], s)
  | c + 1 =>
    let a := randint 480 900 s
    let d := randint 60 180 a.2
    let rest := genWindows c d.2
    ((a.1, min (a.1 + d.1) 1080) :: rest.1, rest.2)

/-- Model of `generate_ev_fleet_problem` from the EV fleet example. The
`battery_capacity` and `avg_distance_per_delivery` parameters are unused by
the source's body and kept for fidelity; `now_ms` models the
`time.time()`-derived seed. -/
def generate_ev_fleet_problem (num_vehicles num_deliveries num_charging_stations : Nat)
    (battery_capacity avg_distance_per_delivery : Int) (now_ms : Nat) : Payload :=
  let s0 := seedState ((now_ms % 4294967296 : Nat) : Int)
  let total := 1 + num_deliveries + num_charging_stations
  let cm := genMatrixAux 3 15 0 total total s0
  let dm := genIntList 1 10 num_deliveries cm.2
  let st := genIntList 5 15 num_deliveries dm.2
  let tw := genWindows num_deliveries st.2
  { cost_matrix := cm.1,
    fleet_data :=
      { vehicle_locations := List.replicate num_vehicles ((0 : Int), (0 : Int)),
        capacities := [List.replicate num_vehicles (50 : Int)],
        vehicle_time_windows := List.replicate num_vehicles ((480 : Int), (1080 : Int)) },
    task_data :=
      { task_locations := (List.range' 1 num_deliveries).map Int.ofNat,
        demand := [dm.1],
        task_time_windows := tw.1,
        service_times := st.1 },
    solver_config := { time_limit := 30 } }

/-- A draw of `randint lo hi` lies in `[lo, hi]`. -/
theorem randint_bounds (lo hi : Int) (s : Nat) (h : lo ≤ hi) :
    lo ≤ (randint lo hi s).1 ∧ (randint lo hi s).1 ≤ hi := by
  have h1 : (0 : Int) ≤ (lcgNext s : Int) % (hi - lo + 1) :=
    Int.emod_nonneg _ (by omega)
  have h2 : (lcgNext s : Int) % (hi - lo + 1) < hi - lo + 1 :=
    Int.emod_lt_of_pos _ (by omega)
  simp only [randint]
  omega

/-- A comprehension of `count` draws has length `count`. -/
theorem genIntList_length (lo hi : Int) : ∀ (c s : Nat), ((genIntList lo hi c s).1).length = c := by
  intro c
  induction c with
  | zero => intro s; rfl
  | succ n ih => intro s; simp [genIntList, ih]

/-- C2 (corrected): for every nonzero supplied seed, the generated cost
matrix does not depend on the clock, so two calls with the same seed return
identical matrices. -/
theorem spec_c2_seed_determinism (n : Nat) (s : Int) (now1 now2 : Nat) (hs : s ≠ 0) :
    (generate_cost_matrix n (some s) now1).1 = (generate_cost_matrix n (some s) now2).1 := by
  simp only [generate_cost_matrix, if_pos hs]

/-- C2 witness: the determinism theorem applied at `n = 2`, seed `5`, and two
distinct clock readings. -/
theorem spec_c2_seed_determinism_witness :
    (generate_cost_matrix 2 (some 5) 0).1 = (generate_cost_matrix 2 (some 5) 7).1 :=
  spec_c2_seed_determinism 2 5 0 7 (by decide)

/-- C2 counterexample: the supplied seed `0` is falsy under the source's
`if seed:` test, so the time-derived branch runs and calls at different
milliseconds return different matrices. -/
theorem spec_c2_counterexample :
    (generate_cost_matrix 2 (some 0) 0).1 ≠ (generate_cost_matrix 2 (some 0) 1).1 := by
  decide

/-- C3 counterexample: at `num_locations = 3`, the payload's `demand` field
is the singleton wrapper `[demands]` of length 1, not length `N - 1 = 2`. -/
theorem spec_c3_counterexample :
    ¬ ((build_vrp_payload 2 3 100 30 none none none 0).1.task_data.demand.length = 3 - 1) := by
  decide

/-- C3 (corrected): with the overrides omitted, `task_locations` equals the
indices `1..N-1` (length `N-1`), `service_times` and `task_time_windows`
have length `N-1`, and the `demand` field is a singleton list whose sole
element has length `N-1`. -/
theorem spec_c3_task_lengths (nv cap tl N : Int) (now : Nat) (hN : 2 ≤ N) :
    (build_vrp_payload nv N cap tl none none none now).1.task_data.task_locations
        = (List.range' 1 (N - 1).toNat).map Int.ofNat ∧
    ((build_vrp_payload nv N cap tl none none none now).1.task_data.task_locations).length
        = (N - 1).toNat ∧
    (∃ d, (build_vrp_payload nv N cap tl none none none now).1.task_data.demand = [d] ∧
        d.length = (N - 1).toNat) ∧
    ((build_vrp_payload nv N cap tl none none none now).1.task_data.service_times).length
        = (N - 1).toNat ∧
    ((build_vrp_payload nv N cap tl none none none now).1.task_data.task_time_windows).length
        = (N - 1).toNat := by
  refine ⟨rfl, ?_, ?_, ?_, ?_⟩
  · simp [build_vrp_payload]
  · exact ⟨(genIntList 5 20 (N - 1).toNat (generate_cost_matrix N.toNat none now).2).1,
      rfl, genIntList_length _ _ _ _⟩
  · simp [build_vrp_payload, genIntList_length]
  · simp [build_vrp_payload]

/-- C3 witness: the amended statement at `N = 4`. -/
theorem spec_c3_task_lengths_witness :
    (build_vrp_payload 1 4 100 30 none none none 0).1.task_data.task_locations
        = (List.range' 1 ((4 : Int) - 1).toNat).map Int.ofNat ∧
    ((build_vrp_payload 1 4 100 30 none none none 0).1.task_data.task_locations).length
        = ((4 : Int) - 1).toNat ∧
    (∃ d, (build_vrp_payload 1 4 100 30 none none none 0).1.task_data.demand = [d] ∧
        d.length = ((4 : Int) - 1).toNat) ∧
    ((build_vrp_payload 1 4 100 30 none none none 0).1.task_data.service_times).length
        = ((4 : Int) - 1).toNat ∧
    ((build_vrp_payload 1 4 100 30 none none none 0).1.task_data.task_time_windows).length
        = ((4 : Int) - 1).toNat :=
  spec_c3_task_lengths 1 100 30 4 0 (by decide)

/-- C4 (confirmed): submitting with no explicit timeout behaves exactly as
submitting with timeout `solver_config.time_limit + 120`; in particular a
payload built with `time_limit = 30` is submitted with timeout `150`. -/
theorem spec_c4_timeout_derivation (payload : Payload) (c : CallEnv) :
    optimize payload none c
      = optimize payload (some (payload.solver_config.time_limit + 120)) c ∧
    ∀ (nv nl cap : Int) (tw : Option (List (Int × Int))) (dm st : Option (List Int)) (now : Nat),
      optimize (build_vrp_payload nv nl cap 30 tw dm st now).1 none c
        = optimize (build_vrp_payload nv nl cap 30 tw dm st now).1 (some 150) c :=
  ⟨rfl, fun _ _ _ _ _ _ _ => rfl⟩

/-- A generated row has as many cells as the loop has iterations. -/
theorem genRowAux_length (lo hi : Int) (i : Nat) :
    ∀ (fuel j s : Nat), ((genRowAux lo hi i j fuel s).1).length = fuel := by
  intro fuel
  induction fuel with
  | zero => intro j s; rfl
  | succ f ih =>
    intro j s
    by_cases hij : i = j
    · subst hij
      simp [genRowAux, ih]
    · simp [genRowAux, hij, ih]

/-- Cell `t` of a row generated from column `j` is `0` on the diagonal
(absolute column `j + t` equal to the row index `i`) and a draw in
`[lo, hi]` off it. -/
theorem genRowAux_getD (lo hi : Int) (hlohi : lo ≤ hi) (i : Nat) :
    ∀ (fuel j s t : Nat), t < fuel →
      (i = j + t ∧ ((genRowAux lo hi i j fuel s).1).getD t 0 = 0) ∨
      (i ≠ j + t ∧ lo ≤ ((genRowAux lo hi i j fuel s).1).getD t 0 ∧
        ((genRowAux lo hi i j fuel s).1).getD t 0 ≤ hi) := by
  intro fuel
  induction fuel with
  | zero => intro j s t ht; omega
  | succ f ih =>
    intro j s t ht
    by_cases hij : i = j
    · cases t with
      | zero => exact Or.inl ⟨by omega, by simp [genRowAux, hij]⟩
      | succ t1 =>
        rcases ih (j + 1) s t1 (by omega) with ⟨ha, hb⟩ | ⟨ha, hb⟩
        · exact Or.inl ⟨by omega, by simpa [genRowAux, hij] using hb⟩
        · exact Or.inr ⟨by omega, by simpa [genRowAux, hij] using hb⟩
    · cases t with
      | zero =>
        refine Or.inr ⟨by omega, ?_⟩
        have hb := randint_bounds lo hi s hlohi
        simpa [genRowAux, hij] using hb
      | succ t1 =>
        rcases ih (j + 1) (randint lo hi s).2 t1 (by omega) with ⟨ha, hb⟩ | ⟨ha, hb⟩
        · exact Or.inl ⟨by omega, by simpa [genRowAux, hij] using hb⟩
        · exact Or.inr ⟨by omega, by simpa [genRowAux, hij] using hb⟩

/-- A generated matrix has as many rows as the loop has iterations. -/
theorem genMatrixAux_length (lo hi : Int) (n : Nat) :
    ∀ (fuel i s : Nat), ((genMatrixAux lo hi i n fuel s).1).length = fuel := by
  intro fuel
  induction fuel with
  | zero => intro i s; rfl
  | succ f ih => intro i s; simp [genMatrixAux, ih]

/-- Row `t` of a generated matrix is a row generated at row index `i + t`
from some intermediate generator state. -/
theorem genMatrixAux_getD (lo hi : Int) (n : Nat) :
    ∀ (fuel i s t : Nat), t < fuel →
      ∃ s1, ((genMatrixAux lo hi i n fuel s).1).getD t []
        = (genRowAux lo hi (i + t) 0 n s1).1 := by
  intro fuel
  induction fuel with
  | zero => intro i s t ht; omega
  | succ f ih =>
    intro i s t ht
    cases t with
    | zero => exact ⟨s, by simp [genMatrixAux]⟩
    | succ t1 =>
      obtain ⟨s1, hs1⟩ := ih (i + 1) (genRowAux lo hi i 0 n s).2 t1 (by omega)
      refine ⟨s1, ?_⟩
      have hidx : i + (t1 + 1) = i + 1 + t1 := by omega
      rw [hidx]
      simpa [genMatrixAux] using hs1

/-- C8 (confirmed): for every `num_locations` and every seed (supplied or
not), the generated cost matrix is `n x n`, every diagonal entry is `0`, and
every off-diagonal entry lies in `[5, 100]`. -/
theorem spec_c8_matrix_shape (n : Nat) (seed : Option Int) (now : Nat) :
    ((generate_cost_matrix n seed now).1).length = n ∧
    (∀ i, i < n → (((generate_cost_matrix n seed now).1).getD i []).length = n) ∧
    (∀ i, i < n → (((generate_cost_matrix n seed now).1).getD i []).getD i 0 = 0) ∧
    (∀ i j, i < n → j < n → i ≠ j →
      5 ≤ (((generate_cost_matrix n seed now).1).getD i []).getD j 0 ∧
      (((generate_cost_matrix n seed now).1).getD i []).getD j 0 ≤ 100) := by
  obtain ⟨s0, hs0⟩ : ∃ s0, generate_cost_matrix n seed now = genMatrixAux 5 100 0 n n s0 := by
    unfold generate_cost_matrix
    exact ⟨_, rfl⟩
  rw [hs0]
  refine ⟨genMatrixAux_length 5 100 n n 0 s0, ?_, ?_, ?_⟩
  · intro i hi
    obtain ⟨s1, hrow⟩ := genMatrixAux_getD 5 100 n n 0 s0 i hi
    rw [hrow]
    simpa using genRowAux_length 5 100 (0 + i) n 0 s1
  · intro i hi
    obtain ⟨s1, hrow⟩ := genMatrixAux_getD 5 100 n n 0 s0 i hi
    rw [hrow]
    rcases genRowAux_getD 5 100 (by decide) (0 + i) n 0 s1 i hi with ⟨_, h0⟩ | ⟨hne, _⟩
    · exact h0
    · omega
  · intro i j hi hj hij
    obtain ⟨s1, hrow⟩ := genMatrixAux_getD 5 100 n n 0 s0 i hi
    rw [hrow]
    rcases genRowAux_getD 5 100 (by decide) (0 + i) n 0 s1 j hj with ⟨heq, _⟩ | ⟨_, hb⟩
    · omega
    · exact hb

/-- C8 witness: the shape theorem applied at `n = 2` with seed `7`, giving a
zero diagonal entry and an in-range off-diagonal entry. -/
theorem spec_c8_matrix_shape_witness :
    (((generate_cost_matrix 2 (some 7) 0).1).getD 0 []).getD 0 0 = 0 ∧
    5 ≤ (((generate_cost_matrix 2 (some 7) 0).1).getD 0 []).getD 1 0 :=
  ⟨(spec_c8_matrix_shape 2 (some 7) 0).2.2.1 0 (by decide),
   ((spec_c8_matrix_shape 2 (some 7) 0).2.2.2 0 1 (by decide) (by decide) (by decide)).1⟩

/-- Every window generated by the EV time-window comprehension starts in
`[480, 900]`, is non-empty, and ends by `1080`. -/
theorem genWindows_bounds : ∀ (count s : Nat) (w : Int × Int), w ∈ (genWindows count s).1 →
    480 ≤ w.1 ∧ w.1 ≤ 900 ∧ w.1 < w.2 ∧ w.2 ≤ 1080 := by
  intro count
  induction count with
  | zero =>
    intro s w hw
    simp [genWindows] at hw
  | succ c ih =>
    intro s w hw
    simp only [genWindows] at hw
    rcases List.mem_cons.mp hw with h | h
    · subst h
      obtain ⟨ha1, ha2⟩ := randint_bounds 480 900 s (by decide)
      obtain ⟨hd1, hd2⟩ := randint_bounds 60 180 (randint 480 900 s).2 (by decide)
      refine ⟨ha1, ha2, ?_, ?_⟩
      · exact lt_min (by omega) (by omega)
      · exact min_le_right _ _
    · exact ih _ w h

/-- C10 (confirmed): every task time window `[start, end]` generated by
`generate_ev_fleet_problem` satisfies `480 <= start <= 900` and
`start < end <= 1080`. -/
theorem spec_c10_ev_time_windows (nv nd ncs : Nat) (bc ad : Int) (now : Nat) (w : Int × Int)
    (hw : w ∈ (generate_ev_fleet_problem nv nd ncs bc ad now).task_data.task_time_windows) :
    480 ≤ w.1 ∧ w.1 ≤ 900 ∧ w.1 < w.2 ∧ w.2 ≤ 1080 := by
  dsimp only [generate_ev_fleet_problem] at hw
  exact genWindows_bounds nd _ w hw

/-- C10 witness: the window theorem applied to the first window of a
concretely generated EV problem. -/
theorem spec_c10_ev_time_windows_witness :
    480 ≤ (((generate_ev_fleet_problem 1 1 1 100 5 0).task_data.task_time_windows).getD 0 (0, 0)).1 ∧
    (((generate_ev_fleet_problem 1 1 1 100 5 0).task_data.task_time_windows).getD 0 (0, 0)).1 ≤ 900 ∧
    (((generate_ev_fleet_problem 1 1 1 100 5 0).task_data.task_time_windows).getD 0 (0, 0)).1
      < (((generate_ev_fleet_problem 1 1 1 100 5 0).task_data.task_time_windows).getD 0 (0, 0)).2 ∧
    (((generate_ev_fleet_problem 1 1 1 100 5 0).task_data.task_time_windows).getD 0 (0, 0)).2 ≤ 1080 :=
  spec_c10_ev_time_windows 1 1 1 100 5 0 _ (by decide)

/-- Setting a key makes it present with the new value. -/
theorem lookupJ_setField_self : ∀ (l : List (String × JValue)) (k : String) (v : JValue),
    lookupJ (setField l k v) k = some v := by
  intro l
  induction l with
  | nil => intro k v; simp [setField, lookupJ]
  | cons head rest ih =>
    intro k v
    obtain ⟨k1, v1⟩ := head
    by_cases h : k1 = k
    · simp [setField, h, lookupJ]
    · simp [setField, h, lookupJ, ih]

/-- Setting a key leaves every other key's binding unchanged. -/
theorem lookupJ_setField_ne : ∀ (l : List (String × JValue)) (k kk : String) (v : JValue),
    k ≠ kk → lookupJ (setField l kk v) k = lookupJ l k := by
  intro l
  induction l with
  | nil =>
    intro k kk v hne
    simp [setField, lookupJ, Ne.symm hne]
  | cons head rest ih =>
    intro k kk v hne
    obtain ⟨k1, v1⟩ := head
    by_cases h : k1 = kk
    · subst h
      simp [setField, lookupJ, Ne.symm hne]
    · by_cases h2 : k1 = k
      · simp [setField, h, lookupJ, h2, hne]
      · simp [setField, h, lookupJ, h2, ih _ _ _ hne]

/-- C5 (corrected): for every response whose decoded body is a JSON object,
`optimize` returns normally — whatever the HTTP status code, including
bodies carrying an `error` field — with the body unchanged except for the
attached `_metadata` record, whose `status_code` is the response's status
and whose `response_time_seconds` is nonnegative under a nondecreasing
clock. -/
theorem spec_c5_metadata (payload : Payload) (c : CallEnv) (status : Nat)
    (fields : List (String × JValue)) (ht : c.t0 ≤ c.t1)
    (hr : c.resp (payload.solver_config.time_limit + 120)
      = .ok ⟨status, .jobj fields⟩) :
    optimize payload none c
      = .ok (.jobj (setField fields "_metadata" (metaObj (c.t1 - c.t0) status))) ∧
    (∀ k, k ≠ "_metadata" →
      lookupJ (setField fields "_metadata" (metaObj (c.t1 - c.t0) status)) k
        = lookupJ fields k) ∧
    lookupJ (setField fields "_metadata" (metaObj (c.t1 - c.t0) status)) "_metadata"
      = some (metaObj (c.t1 - c.t0) status) ∧
    metaObj (c.t1 - c.t0) status
      = .jobj [("response_time_seconds", .jnum (c.t1 - c.t0)),
               ("status_code", .jnum (status : Int))] ∧
    0 ≤ c.t1 - c.t0 := by
  refine ⟨?_, ?_, lookupJ_setField_self _ _ _, rfl, by omega⟩
  · simp only [optimize]
    rw [hr]
  · intro k hk
    exact lookupJ_setField_ne fields k "_metadata" _ hk

/-- C5 witness: the metadata theorem applied to a concrete 200-status
response with an object body. -/
theorem spec_c5_metadata_witness :
    optimize (build_vrp_payload 1 2 100 30 none none none 0).1 none
        ⟨0, 0, 3, fun _ => .ok ⟨200, .jobj [("response", .jnull)]⟩⟩
      = .ok (.jobj (setField [("response", JValue.jnull)] "_metadata"
          (metaObj ((3 : Int) - 0) 200))) ∧
    0 ≤ (3 : Int) - 0 :=
  ⟨(spec_c5_metadata _ _ 200 [("response", JValue.jnull)] (by decide) rfl).1,
   (spec_c5_metadata (build_vrp_payload 1 2 100 30 none none none 0).1
      ⟨0, 0, 3, fun _ => .ok ⟨200, .jobj [("response", .jnull)]⟩⟩ 200
      [("response", JValue.jnull)] (by decide) rfl).2.2.2.2⟩

/-- C5 counterexample: a decodable JSON body that is not an object (here an
array) makes `result["_metadata"] = ...` raise a `TypeError`, so `optimize`
does not return normally for every decodable JSON body. -/
theorem spec_c5_counterexample :
    optimize (build_vrp_payload 1 2 100 30 none none none 0).1 none
        ⟨0, 0, 3, fun _ => .ok ⟨200, .jarr []⟩⟩
      = .error .typeError := rfl

/-- C9 (confirmed): any scenario key outside the seven forwardable parameter
names — in particular `name` — makes the iteration call raise a `TypeError`,
because the whole scenario dictionary is forwarded as keyword arguments
through `optimize_fleet` into `build_vrp_payload`. -/
theorem spec_c9_unexpected_keyword (sc : Scenario) (c : CallEnv)
    (hbad : ∃ p ∈ sc, p.1 ∉ allKeys) :
    optimize_fleet_call sc c = .error .typeError := by
  obtain ⟨p, hp, hnk⟩ := hbad
  have hany : sc.any (fun q => !(allKeys.contains q.1)) = true := by
    refine List.any_eq_true.mpr ⟨p, hp, ?_⟩
    simpa using hnk
  have hbind : bindScenario sc = .error .typeError := by
    unfold bindScenario
    cases h1 : lookupPy sc "num_vehicles" with
    | none => rfl
    | some v =>
      cases v with
      | int nv =>
        cases h2 : lookupPy sc "num_locations" with
        | none => rfl
        | some v2 =>
          cases v2 with
          | int nl =>
            simp only [hany]
            rfl
          | str s => rfl
          | intList l => rfl
          | pairList l => rfl
      | str s => rfl
      | intList l => rfl
      | pairList l => rfl
  simp [optimize_fleet_call, hbind]

/-- C9 witness: a scenario carrying its `name` key raises a `TypeError`. -/
theorem spec_c9_unexpected_keyword_witness :
    optimize_fleet_call
        [("name", PyVal.str "A"), ("num_vehicles", PyVal.int 2), ("num_locations", PyVal.int 3)]
        ⟨0, 0, 0, fun _ => .error ()⟩
      = .error .typeError :=
  spec_c9_unexpected_keyword _ _ ⟨("name", PyVal.str "A"), by decide, by decide⟩

/-- C6 (confirmed): the runner records success exactly when the raw result
has a `response` key, and a mocked service answering every call with HTTP
200 and body carrying only an `error` field yields a completed run (no
exception) whose single iteration record has `success = false`. -/
theorem spec_c6_success_classification (msg : String) (i : Nat) (result : JValue) :
    ((mkRecord i result).success = hasKey result "response") ∧
    run_benchmark (fun _ => ⟨0, 0, 5, fun _ => .ok ⟨200, .jobj [("error", .jstr msg)]⟩⟩)
        "t" "e" [[("num_vehicles", PyVal.int 1), ("num_locations", PyVal.int 2)]] 1
      = .ok ⟨"t", "e",
          [("scenario_0",
            ⟨[("num_vehicles", PyVal.int 1), ("num_locations", PyVal.int 2)],
             [⟨1, 5, false⟩]⟩)]⟩ :=
  ⟨rfl, rfl⟩

/-- C1 (code bug): `run_benchmark` on two named scenarios with a mock
service that always answers decodable JSON aborts with a `TypeError` on the
very first iteration — the scenario dictionary, `name` key included, is
forwarded as keyword arguments into `build_vrp_payload` — so no report with
two scenario entries of three records each is ever produced. -/
theorem spec_c1_run_benchmark_type_error :
    run_benchmark (fun _ => ⟨0, 0, 1, fun _ => .ok ⟨200, .jobj [("response", .jnull)]⟩⟩)
        "2026-01-01T00:00:00" "http://cuopt-service:8000"
        [[("name", PyVal.str "fleet_a"), ("num_vehicles", PyVal.int 2),
          ("num_locations", PyVal.int 3)],
         [("name", PyVal.str "fleet_b"), ("num_vehicles", PyVal.int 4),
          ("num_locations", PyVal.int 5)]]
        3
      = .error .typeError := rfl

/-- Successful keyword binding, unpacked. -/
theorem bindOk_iff (sc : Scenario) : bindOk sc = true ↔ ∃ b, bindScenario sc = .ok b := by
  unfold bindOk
  cases h : bindScenario sc with
  | ok b => simp
  | error e => simp

/-- A scenario that binds successfully has both required keys, so the
`print` preceding the submissions raises no `KeyError`. -/
theorem bindOk_lookups (sc : Scenario) (hb : bindOk sc = true) :
    (lookupPy sc "num_vehicles").isNone = false ∧
    (lookupPy sc "num_locations").isNone = false := by
  constructor
  · cases h1 : lookupPy sc "num_vehicles" with
    | some v => rfl
    | none => simp [bindOk, bindScenario, h1] at hb
  · cases h2 : lookupPy sc "num_locations" with
    | some v => rfl
    | none =>
      cases h1 : lookupPy sc "num_vehicles" with
      | none => simp [bindOk, bindScenario, h1] at hb
      | some v =>
        cases v with
        | int nv => simp [bindOk, bindScenario, h1, h2] at hb
        | str s => simp [bindOk, bindScenario, h1] at hb
        | intList l => simp [bindOk, bindScenario, h1] at hb
        | pairList l => simp [bindOk, bindScenario, h1] at hb

/-- A hashable (or absent) `name` value always yields a storage key. -/
theorem scenarioName_ok (sc : Scenario) (hn : nameOk sc = true) (idx : Nat) :
    ∃ nm, scenarioName sc idx = .ok nm := by
  unfold nameOk at hn
  unfold scenarioName
  cases h : lookupPy sc "name" with
  | none => exact ⟨_, rfl⟩
  | some v =>
    cases v with
    | int n => exact ⟨_, rfl⟩
    | str s => exact ⟨s, rfl⟩
    | intList l => rw [h] at hn; simp at hn
    | pairList l => rw [h] at hn; simp at hn

/-- A call whose HTTP layer answers with an object body succeeds. -/
theorem optimize_ok_of_obj (payload : Payload) (c : CallEnv) (status : Nat)
    (fields : List (String × JValue))
    (hr : ∀ t, c.resp t = .ok ⟨status, .jobj fields⟩) :
    optimize payload none c
      = .ok (.jobj (setField fields "_metadata" (metaObj (c.t1 - c.t0) status))) := by
  simp only [optimize]
  rw [hr]

/-- A call whose HTTP layer raises propagates as a network error. -/
theorem optimize_err_of_fail (payload : Payload) (c : CallEnv)
    (hr : ∀ t, c.resp t = .error ()) :
    optimize payload none c = .error .networkError := by
  simp only [optimize]
  rw [hr]

/-- An iteration on a well-bound scenario with an object-body response
returns the decoded body with metadata attached. -/
theorem optimize_fleet_ok (sc : Scenario) (c : CallEnv) (b : BoundArgs)
    (hb : bindScenario sc = .ok b) (status : Nat) (fields : List (String × JValue))
    (hr : ∀ t, c.resp t = .ok ⟨status, .jobj fields⟩) :
    optimize_fleet_call sc c
      = .ok (.jobj (setField fields "_metadata" (metaObj (c.t1 - c.t0) status))) := by
  unfold optimize_fleet_call
  rw [hb]
  exact optimize_ok_of_obj _ _ _ _ hr

/-- An iteration on a well-bound scenario whose HTTP call raises propagates
the network error. -/
theorem optimize_fleet_err (sc : Scenario) (c : CallEnv) (b : BoundArgs)
    (hb : bindScenario sc = .ok b) (hr : ∀ t, c.resp t = .error ()) :
    optimize_fleet_call sc c = .error .networkError := by
  unfold optimize_fleet_call
  rw [hb]
  exact optimize_err_of_fail _ _ hr

/-- When every call of the iteration loop gets an object-body response, the
loop completes with some record list. -/
theorem run_iters_ok (env : Nat → CallEnv) (sc : Scenario) (b : BoundArgs)
    (hb : bindScenario sc = .ok b) :
    ∀ (n k i : Nat),
      (∀ j, j < n → ∃ status fields, ∀ t,
        (env (k + j)).resp t = .ok ⟨status, .jobj fields⟩) →
      ∃ recs, run_iters env sc k i n = .ok recs := by
  intro n
  induction n with
  | zero => intro k i h; exact ⟨[], rfl⟩
  | succ m ih =>
    intro k i h
    obtain ⟨status, fields, hr⟩ := h 0 (by omega)
    have hcall := optimize_fleet_ok sc (env k) b hb status fields (by simpa using hr)
    have hshift : ∀ j, j < m → ∃ status fields, ∀ t,
        (env (k + 1 + j)).resp t = .ok ⟨status, .jobj fields⟩ := by
      intro j hj
      have hidx : k + 1 + j = k + (j + 1) := by omega
      rw [hidx]
      exact h (j + 1) (by omega)
    obtain ⟨recs, hrecs⟩ := ih (k + 1) (i + 1) hshift
    exact ⟨mkRecord i (.jobj (setField fields "_metadata"
        (metaObj ((env k).t1 - (env k).t0) status))) :: recs,
      by simp [run_iters, hcall, hrecs]⟩

/-- If the calls before index `d` of the iteration loop succeed with object
bodies and call `d` raises, the loop aborts with the network error. -/
theorem run_iters_fail (env : Nat → CallEnv) (sc : Scenario) (b : BoundArgs)
    (hb : bindScenario sc = .ok b) :
    ∀ (n k i d : Nat), d < n →
      (∀ j, j < d → ∃ status fields, ∀ t,
        (env (k + j)).resp t = .ok ⟨status, .jobj fields⟩) →
      (∀ t, (env (k + d)).resp t = .error ()) →
      run_iters env sc k i n = .error .networkError := by
  intro n
  induction n with
  | zero => intro k i d hd; omega
  | succ m ih =>
    intro k i d hd hok hfail
    cases d with
    | zero =>
      have hcall := optimize_fleet_err sc (env k) b hb (by simpa using hfail)
      simp [run_iters, hcall]
    | succ d1 =>
      obtain ⟨status, fields, hr⟩ := hok 0 (by omega)
      have hcall := optimize_fleet_ok sc (env k) b hb status fields (by simpa using hr)
      have hrec := ih (k + 1) (i + 1) d1 (by omega)
        (fun j hj => by
          have hidx : k + 1 + j = k + (j + 1) := by omega
          rw [hidx]
          exact hok (j + 1) (by omega))
        (by
          have hidx : k + 1 + d1 = k + (d1 + 1) := by omega
          rw [hidx]
          exact hfail)
      simp [run_iters, hcall, hrec]

/-- If every scenario binds and names cleanly, the calls before global call
index `d` succeed with object bodies, and call `d` raises, the scenario loop
aborts with the network error. -/
theorem run_scenarios_fail (env : Nat → CallEnv) (iters : Nat) :
    ∀ (scenarios : List Scenario) (k idx d : Nat),
      (∀ sc ∈ scenarios, bindOk sc = true ∧ nameOk sc = true) →
      d < scenarios.length * iters →
      (∀ j, j < d → ∃ status fields, ∀ t,
        (env (k + j)).resp t = .ok ⟨status, .jobj fields⟩) →
      (∀ t, (env (k + d)).resp t = .error ()) →
      run_scenarios env iters scenarios k idx = .error .networkError := by
  intro scenarios
  induction scenarios with
  | nil =>
    intro k idx d hv hd hok hfail
    simp at hd
  | cons sc rest ih =>
    intro k idx d hv hd hok hfail
    have hsc := hv sc (List.mem_cons_self sc rest)
    obtain ⟨b, hb⟩ := (bindOk_iff sc).mp hsc.1
    have hlk := bindOk_lookups sc hsc.1
    have hguard : ((lookupPy sc "num_vehicles").isNone
        || (lookupPy sc "num_locations").isNone) = false := by
      rw [hlk.1, hlk.2]
      rfl
    have hd2 : d < rest.length * iters + iters := by
      have h3 : (sc :: rest).length * iters = rest.length * iters + iters := by
        simp [List.length_cons, Nat.succ_mul]
      rw [h3] at hd
      exact hd
    by_cases hcase : d < iters
    · have hrun := run_iters_fail env sc b hb iters k 0 d hcase hok hfail
      simp [run_scenarios, hguard, hrun]
    · push_neg at hcase
      obtain ⟨recs, hrecs⟩ := run_iters_ok env sc b hb iters k 0
        (fun j hj => hok j (by omega))
      obtain ⟨nm, hnm⟩ := scenarioName_ok sc hsc.2 idx
      have hd3 : d - iters < rest.length * iters := by
        generalize rest.length * iters = A at hd2 ⊢
        omega
      have hrest := ih (k + iters) (idx + 1) (d - iters)
        (fun s hs => hv s (List.mem_cons_of_mem _ hs))
        hd3
        (fun j hj => by
          have hidx : k + iters + j = k + (iters + j) := by omega
          rw [hidx]
          exact hok (iters + j) (by omega))
        (by
          have hidx : k + iters + (d - iters) = k + d := by omega
          rw [hidx]
          exact hfail)
      simp [run_scenarios, hguard, hrecs, hnm, hrest]

/-- C7 (confirmed): over well-formed scenarios, if the submission at any
global call index `d` within the run raises (a network failure at whatever
timeout it is given) while the calls before it succeed, `run_benchmark` does
not catch it: the run aborts with that exception and no report — including
the records accumulated before the failing iteration — is returned. -/
theorem spec_c7_failure_aborts_run (env : Nat → CallEnv) (ts ep : String)
    (scenarios : List Scenario) (iters d : Nat)
    (hv : ∀ sc ∈ scenarios, bindOk sc = true ∧ nameOk sc = true)
    (hd : d < scenarios.length * iters)
    (hok : ∀ j, j < d → ∃ status fields, ∀ t,
      (env j).resp t = .ok ⟨status, .jobj fields⟩)
    (hfail : ∀ t, (env d).resp t = .error ()) :
    run_benchmark env ts ep scenarios iters = .error .networkError := by
  have h := run_scenarios_fail env iters scenarios 0 0 d hv hd
    (fun j hj => by simpa using hok j hj)
    (by simpa using hfail)
  simp [run_benchmark, h]

/-- C7 witness: a run of one scenario and one iteration whose only call
raises aborts with the network error. -/
theorem spec_c7_failure_aborts_run_witness :
    run_benchmark (fun _ => ⟨0, 0, 0, fun _ => .error ()⟩) "t" "e"
        [[("num_vehicles", PyVal.int 1), ("num_locations", PyVal.int 2)]] 1
      = .error .networkError :=
  spec_c7_failure_aborts_run _ "t" "e" _ 1 0 (by decide) (by decide)
    (fun j hj => absurd hj (by omega)) (fun t => rfl)

end CuOpt
